import Mathlib

/-!
Verification of the derphttp reconnecting DERP-over-HTTP client
(package derphttp, file derphttp.go).

The development is a shallow embedding: the mutex-guarded fields of the
Go Client struct become a ClientState record, each method becomes a pure
Lean function from the pre-state (plus oracles describing the outcomes
of external I/O such as dialing, the TLS handshake, and the inner DERP
client calls) to its Go return values, the post-state, and a list of
observable events (dial attempts, transport closes, downstream
notifications).  Pointer identities of the inner derp.Client and of the
net.Conn transport are modelled as natural numbers wrapped in Option,
with none standing for a nil Go pointer.
-/

deriving instance DecidableEq for Except

namespace DerpHTTP

/-- GoErr models a Go error value that the client code compares by
identity or creates with a message.  The clientClosed constructor is the
distinguished ErrClientClosed sentinel. -/
inductive GoErr where
  | clientClosed
  | errMsg (msg : String)
  deriving DecidableEq, Repr

/-- ErrClientClosed is the distinguished sentinel error
(derphttp.go line 807). -/
def ErrClientClosed : GoErr := GoErr.clientClosed

/-- Event records the externally observable side effects of one method
call: opening a socket, closing a transport by identity, forwarding a
NotePreferred to the inner DERP client, forwarding a pong. -/
inductive Event where
  | dial
  | closeConn (id : Nat)
  | noteToClient (v : Bool)
  | pong
  deriving DecidableEq, Repr

/-- KeyPublic models key.Public, a 32 byte public key, as a list of
byte values. -/
abbrev KeyPublic := List Nat

/-- zeroKey is the zero value key.Public\x7b\x7d. -/
def zeroKey : KeyPublic := List.replicate 32 0

/-- isZeroKey models key.Public.IsZero, comparison with the zero key. -/
def isZeroKey (k : KeyPublic) : Bool := decide (k = zeroKey)

/-- ClientState holds the mutex-guarded mutable fields of the Go Client
struct (derphttp.go lines 65 to 72): preferred, canAckPings, closed,
netConn, client, connGen, serverPubKey. -/
structure ClientState where
  closed : Bool
  preferred : Bool
  canAckPings : Bool
  client : Option Nat
  netConn : Option Nat
  connGen : Nat
  serverPubKey : KeyPublic
  deriving DecidableEq, Repr

/-- initClient is the state of a freshly constructed Client: every field
has its Go zero value, in particular connGen is 0 and the slot is
empty. -/
def initClient : ClientState :=
  { closed := false, preferred := false, canAckPings := false,
    client := none, netConn := none, connGen := 0, serverPubKey := zeroKey }

/-- Attempt is the oracle describing the outcome of one full dial plus
TLS plus HTTP upgrade plus DERP handshake sequence performed by connect
when the slot is empty.  succeed carries the identity of the new
derp.Client, the identity of the underlying transport, and the server
public key learned during the handshake; fail carries the error
message.  The whole multi-stage attempt (derphttp.go lines 191 to 357)
is abstracted into this single outcome because every failure inside it
returns before any state field is written. -/
inductive Attempt where
  | fail (e : String)
  | succeed (clientId : Nat) (connId : Nat) (serverKey : KeyPublic)
  deriving DecidableEq, Repr

/-- connect models Client.connect (derphttp.go lines 181 to 364).
Under the mutex: if closed, return ErrClientClosed; if a client is
stored, return it with the current generation; otherwise perform the
dial attempt, and on success store the new client and transport,
increment connGen, record the server key, and return the new client
with the new generation.  On failure the state is unchanged. -/
def connect (s : ClientState) (att : Attempt) :
    Except GoErr (Nat × Nat) × ClientState × List Event :=
  if s.closed then (Except.error GoErr.clientClosed, s, [])
  else
    match s.client with
    | some k => (Except.ok (k, s.connGen), s, [])
    | none =>
      match att with
      | Attempt.fail e => (Except.error (GoErr.errMsg e), s, [Event.dial])
      | Attempt.succeed k conn pub =>
        (Except.ok (k, s.connGen + 1),
         { s with client := some k, netConn := some conn,
                  connGen := s.connGen + 1, serverPubKey := pub },
         [Event.dial])

/-- closeForReconnect models Client.closeForReconnect (derphttp.go
lines 794 to 805).  If the stored client differs from brokenClient the
call does nothing; otherwise it closes the transport if present and
clears both netConn and client. -/
def closeForReconnect (s : ClientState) (brokenClient : Option Nat) :
    ClientState × List Event :=
  if s.client ≠ brokenClient then (s, [])
  else
    match s.netConn with
    | some nc => ({ s with netConn := none, client := none }, [Event.closeConn nc])
    | none => ({ s with client := none }, [])

/-- Close models Client.Close (derphttp.go lines 769 to 782).  If
already closed it returns ErrClientClosed; otherwise it sets the closed
flag and closes the transport if present.  It does not clear the client
or netConn fields. -/
def Close (s : ClientState) : Option GoErr × ClientState × List Event :=
  if s.closed then (some GoErr.clientClosed, s, [])
  else
    (none, { s with closed := true },
     match s.netConn with
     | some nc => [Event.closeConn nc]
     | none => [])

/-- SendPong models Client.SendPong (derphttp.go lines 662 to 676): if
closed return ErrClientClosed, if no client is stored return a not
connected error, otherwise forward to the stored client and return its
result (supplied by the downstream oracle) verbatim.  No connect, no
teardown, no state change. -/
def SendPong (s : ClientState) (downstream : Option GoErr) :
    Option GoErr × ClientState × List Event :=
  if s.closed then (some GoErr.clientClosed, s, [])
  else
    match s.client with
    | none => (some (GoErr.errMsg "not connected"), s, [])
    | some _ => (downstream, s, [Event.pong])

/-- NotePreferred models Client.NotePreferred (derphttp.go lines 689 to
704): if the stored flag already equals v, return at once; otherwise
store v, and if a client is stored invoke its NotePreferred (outcome
supplied by the downstream oracle), tearing down with closeForReconnect
on error. -/
def NotePreferred (s : ClientState) (v : Bool) (downstream : Option GoErr) :
    ClientState × List Event :=
  if s.preferred = v then (s, [])
  else
    let s1 := { s with preferred := v }
    match s1.client with
    | none => (s1, [])
    | some k =>
      match downstream with
      | none => (s1, [Event.noteToClient v])
      | some _ =>
        let r := closeForReconnect s1 (some k)
        (r.1, Event.noteToClient v :: r.2)

/-- RecvDetail models Client.RecvDetail (derphttp.go lines 746 to 759):
connect first, propagating its error with generation 0; then receive
one message from the inner client (outcome supplied by the recvRes
oracle).  On a receive error, tear down with closeForReconnect and, if
the handle is then observed closed, replace the error with
ErrClientClosed.  Messages are modelled by their identity as a Nat. -/
def RecvDetail (s : ClientState) (att : Attempt) (recvRes : Except GoErr Nat) :
    (Option Nat × Nat × Option GoErr) × ClientState × List Event :=
  match connect s att with
  | (Except.error e, s1, ev) => ((none, 0, some e), s1, ev)
  | (Except.ok (k, gen), s1, ev) =>
    match recvRes with
    | Except.ok m => ((some m, gen, none), s1, ev)
    | Except.error e =>
      let r := closeForReconnect s1 (some k)
      ((none, gen, some (if r.1.closed then GoErr.clientClosed else e)),
       r.1, ev ++ r.2)

/-- Recv models Client.Recv (derphttp.go lines 739 to 742): it calls
RecvDetail and discards the generation. -/
def Recv (s : ClientState) (att : Attempt) (recvRes : Except GoErr Nat) :
    (Option Nat × Option GoErr) × ClientState × List Event :=
  let r := RecvDetail s att recvRes
  ((r.1.1, r.1.2.2), r.2.1, r.2.2)

/-- COp enumerates the supervisor operations used to build traces of
the state machine. -/
inductive COp where
  | connectOp (att : Attempt)
  | closeForReconnectOp (w : Option Nat)
  | closeOp
  | sendPongOp (d : Option GoErr)
  | notePreferredOp (v : Bool) (d : Option GoErr)
  | recvOp (att : Attempt) (r : Except GoErr Nat)
  deriving Repr

/-- stepState applies one operation to a state and keeps the post
state. -/
def stepState (s : ClientState) : COp → ClientState
  | COp.connectOp att => (connect s att).2.1
  | COp.closeForReconnectOp w => (closeForReconnect s w).1
  | COp.closeOp => (Close s).2.1
  | COp.sendPongOp d => (SendPong s d).2.1
  | COp.notePreferredOp v d => (NotePreferred s v d).1
  | COp.recvOp att r => (RecvDetail s att r).2.1

/-- runState runs a list of operations from a state. -/
def runState (s : ClientState) : List COp → ClientState
  | [] => s
  | op :: ops => runState (stepState s op) ops

/-- freshSuccess reports whether the operation, applied at state s,
performs a successful dial from an empty slot on an open handle, which
is exactly when connGen is incremented. -/
def freshSuccess (s : ClientState) : COp → Bool
  | COp.connectOp (Attempt.succeed _ _ _) =>
      decide (s.closed = false ∧ s.client = none)
  | COp.recvOp (Attempt.succeed _ _ _) _ =>
      decide (s.closed = false ∧ s.client = none)
  | _ => false

/-- runCount counts the reconnects (fresh successful connects) along a
run. -/
def runCount (s : ClientState) : List COp → Nat
  | [] => 0
  | op :: ops =>
      (if freshSuccess s op then 1 else 0) + runCount (stepState s op) ops

/-- IPAddr models an inet.af/netaddr IP value as used by dialNode: the
zero IP (what the discarded-error ParseIP call leaves on failure), an
IPv4 address, or an IPv6 address given by its eight 16 bit groups. -/
inductive IPAddr where
  | zero
  | v4 (a b c d : Nat)
  | v6 (groups : List Nat)
  deriving DecidableEq, Repr

/-- is4 models netaddr.IP.Is4: true exactly for an IPv4 value (the
model never builds 4-in-6 mapped values). -/
def IPAddr.is4 : IPAddr → Bool
  | IPAddr.v4 _ _ _ _ => true
  | _ => false

/-- is6 models netaddr.IP.Is6: true exactly for an IPv6 value. -/
def IPAddr.is6 : IPAddr → Bool
  | IPAddr.v6 _ => true
  | _ => false

/-- splitOnChar splits a character list on a separator; the separator
occurrences are dropped and the pieces kept in order, like Go
strings.Split.  All string processing in this development works on the
character list of the String so that every function reduces inside the
kernel; the inputs of interest are ASCII, where Go bytes and Lean
characters agree. -/
def splitOnChar (sep : Char) : List Char → List (List Char)
  | [] => [[]]
  | ch :: rest =>
    if ch = sep then [] :: splitOnChar sep rest
    else
      match splitOnChar sep rest with
      | [] => [[ch]]
      | g :: gs => (ch :: g) :: gs

/-- decValue reads a decimal digit list as a number. -/
def decValue (cs : List Char) : Nat :=
  cs.foldl (fun acc ch => acc * 10 + (ch.toNat - 48)) 0

/-- parseOctet parses one dotted-quad component: one to three decimal
digits with value at most 255. -/
def parseOctet (cs : List Char) : Option Nat :=
  if (1 ≤ cs.length ∧ cs.length ≤ 3) ∧ cs.all Char.isDigit = true then
    if decValue cs ≤ 255 then some (decValue cs) else none
  else none

/-- parseIPv4 parses a dotted quad. -/
def parseIPv4 (s : String) : Option IPAddr :=
  match splitOnChar '.' s.data with
  | [a, b, c, d] =>
    match parseOctet a, parseOctet b, parseOctet c, parseOctet d with
    | some x, some y, some z, some w => some (IPAddr.v4 x y z w)
    | _, _, _, _ => none
  | _ => none

/-- hexDigitVal gives the value of one hex digit, lower or upper
case. -/
def hexDigitVal (ch : Char) : Option Nat :=
  if ch.isDigit then some (ch.toNat - 48)
  else if 97 ≤ ch.toNat ∧ ch.toNat ≤ 102 then some (ch.toNat - 87)
  else if 65 ≤ ch.toNat ∧ ch.toNat ≤ 70 then some (ch.toNat - 55)
  else none

/-- parseHexGroup parses one IPv6 group: one to four hex digits. -/
def parseHexGroup (cs : List Char) : Option Nat :=
  if (1 ≤ cs.length ∧ cs.length ≤ 4) ∧
      cs.all (fun ch => (hexDigitVal ch).isSome) = true then
    some (cs.foldl (fun acc ch => acc * 16 + ((hexDigitVal ch).getD 0)) 0)
  else none

/-- parseGroupList parses every colon separated group of one side of an
IPv6 literal. -/
def parseGroupList : List (List Char) → Option (List Nat)
  | [] => some []
  | p :: ps =>
    match parseHexGroup p, parseGroupList ps with
    | some g, some gs => some (g :: gs)
    | _, _ => none

/-- parseSide parses one side of a double colon, the empty side giving
no groups. -/
def parseSide (cs : List Char) : Option (List Nat) :=
  if cs = [] then some [] else parseGroupList (splitOnChar ':' cs)

/-- splitOnDoubleColon finds the first double colon and returns the
characters before and after it, if present. -/
def splitOnDoubleColon : List Char → Option (List Char × List Char)
  | [] => none
  | ':' :: ':' :: rest => some ([], rest)
  | c :: rest =>
    match splitOnDoubleColon rest with
    | some (l, r) => some (c :: l, r)
    | none => none

/-- hasDoubleColon reports whether a double colon occurs. -/
def hasDoubleColon : List Char → Bool
  | [] => false
  | ':' :: ':' :: _ => true
  | _ :: rest => hasDoubleColon rest

/-- parseIPv6 parses a colon separated IPv6 literal with at most one
double colon standing for at least one zero group; 4-in-6 embedded
forms and zones are not modelled. -/
def parseIPv6 (s : String) : Option IPAddr :=
  match splitOnDoubleColon s.data with
  | some (l, r) =>
    if hasDoubleColon r then none
    else
      match parseSide l, parseSide r with
      | some ls, some rs =>
        if ls.length + rs.length ≤ 7 then
          some (IPAddr.v6 (ls ++ List.replicate (8 - ls.length - rs.length) 0 ++ rs))
        else none
      | _, _ => none
  | none =>
    match parseSide s.data with
    | some gs => if gs.length = 8 then some (IPAddr.v6 gs) else none
    | none => none

/-- parseIP models the use of netaddr.ParseIP inside shouldDialProto
(derphttp.go line 476): the error return is discarded, so a string that
parses as neither family yields the zero IP. -/
def parseIP (s : String) : IPAddr :=
  match parseIPv4 s with
  | some ip => ip
  | none =>
    match parseIPv6 s with
    | some ip => ip
    | none => IPAddr.zero

/-- shouldDialProto models the function of the same name (derphttp.go
lines 472 to 478): an empty literal means dial via DNS; a nonempty one
is dialled only if it parses as an address of the right family. -/
def shouldDialProto (s : String) (pred : IPAddr → Bool) : Bool :=
  if s = "" then true else pred (parseIP s)

/-- DERPNode models the fields of tailcfg.DERPNode read by this
package. -/
structure DERPNode where
  hostName : String
  ipv4 : String
  ipv6 : String
  stunOnly : Bool
  derpPort : Nat
  deriving DecidableEq, Repr

/-- nodeDst models the destination selection in startDial (derphttp.go
lines 514 to 517): the family literal if nonempty, else the node host
name. -/
def nodeDst (n : DERPNode) (dstPrimary : String) : String :=
  if dstPrimary = "" then n.hostName else dstPrimary

/-- nodePort models the port selection in startDial (derphttp.go lines
518 to 521): DERPPort if nonzero, else 443. -/
def nodePort (n : DERPNode) : Nat :=
  if n.derpPort ≠ 0 then n.derpPort else 443

/-- dialNode models Client.dialNode (derphttp.go lines 488 to 560).  If
the proxy helper yields a proxy URL the call delegates to
dialNodeUsingProxy, whose outcome is supplied by the proxyRes oracle,
and no direct family dial is started.  Otherwise one racer is started
per enabled protocol family; if no family is enabled the call fails at
once with the both-disabled error.  The race outcome (first success, or
first error among the started racers) is supplied by the race oracle.
The second component lists the started dials as (network, host, port)
triples. -/
def dialNode (n : DERPNode) (proxyURL : Option String)
    (proxyRes : Except String Nat) (race : Except String Nat) :
    Except String Nat × List (String × String × Nat) :=
  match proxyURL with
  | some _ => (proxyRes, [])
  | none =>
    let a4 := if shouldDialProto n.ipv4 IPAddr.is4 then
        [("tcp4", nodeDst n n.ipv4, nodePort n)] else []
    let a6 := if shouldDialProto n.ipv6 IPAddr.is6 then
        [("tcp6", nodeDst n n.ipv6, nodePort n)] else []
    let attempts := a4 ++ a6
    if attempts = [] then
      (Except.error "both IPv4 and IPv6 are explicitly disabled for node", [])
    else (race, attempts)

/-- DERPRegion models the fields of tailcfg.DERPRegion read by this
package. -/
structure DERPRegion where
  regionID : Int
  regionCode : String
  nodes : List DERPNode
  deriving DecidableEq, Repr

/-- targetString models Client.targetString (derphttp.go lines 152 to
157) for the region plan. -/
def targetString (reg : DERPRegion) : String :=
  "region " ++ toString reg.regionID ++ " (" ++ reg.regionCode ++ ")"

/-- dialRegionLoop is the loop body of Client.dialRegion (derphttp.go
lines 399 to 414): walk the nodes, skip STUNOnly nodes recording the
synthesized error as firstErr if firstErr is still nil, dial the
others, return the first success, keep the first dial error, and on
exhaustion return firstErr.  The result is the Go return triple encoded
as (success value, error), together with the list of nodes actually
dialled. -/
def dialRegionLoop (target : String) (dial : DERPNode → Except String Nat) :
    List DERPNode → Option String →
    Option (Nat × DERPNode) × Option String × List DERPNode
  | [], firstErr => (none, firstErr, [])
  | n :: ns, firstErr =>
    if n.stunOnly then
      let fe := match firstErr with
        | none => some ("no non-STUNOnly nodes for " ++ target)
        | some e0 => some e0
      dialRegionLoop target dial ns fe
    else
      match dial n with
      | Except.ok conn => (some (conn, n), none, [n])
      | Except.error e =>
        let fe := match firstErr with
          | none => some e
          | some e0 => some e0
        let r := dialRegionLoop target dial ns fe
        (r.1, r.2.1, n :: r.2.2)

/-- dialRegion models Client.dialRegion (derphttp.go lines 394 to 415):
an empty node list yields the no-nodes error, otherwise the loop runs
with firstErr nil.  The per node dial outcome is supplied by the dial
oracle. -/
def dialRegion (reg : DERPRegion) (dial : DERPNode → Except String Nat) :
    Option (Nat × DERPNode) × Option String × List DERPNode :=
  if reg.nodes = [] then
    (none, some ("no nodes for " ++ targetString reg), [])
  else dialRegionLoop (targetString reg) dial reg.nodes none

/-- Certificate models the fields of an x509.Certificate read by
parseMetaCert: the subject common name and the serial number (a
big.Int, hence an unbounded signed integer). -/
structure Certificate where
  commonName : String
  serialNumber : Int
  deriving DecidableEq, Repr

/-- strHasPrefix models Go strings.HasPrefix on the character list. -/
def strHasPrefix (s pre : String) : Bool :=
  decide (s.data.take pre.data.length = pre.data)

/-- strDropChars models Go strings.TrimPrefix once the prefix length is
known: drop that many characters. -/
def strDropChars (s : String) (n : Nat) : String :=
  String.mk (s.data.drop n)

/-- decodeHexPairs decodes an even length hex digit sequence into
bytes. -/
def decodeHexPairs : List Char → Option (List Nat)
  | [] => some []
  | [_] => none
  | c1 :: c2 :: rest =>
    match hexDigitVal c1, hexDigitVal c2, decodeHexPairs rest with
    | some a, some b, some bs => some ((a * 16 + b) :: bs)
    | _, _, _ => none

/-- newPublicFromHex models key.NewPublicFromHexMem: the input must be
exactly 64 hex digits and decodes to the 32 key bytes. -/
def newPublicFromHex (s : String) : Option KeyPublic :=
  if s.length = 64 then decodeHexPairs s.data else none

/-- natBitLenFuel computes the binary length of n with explicit fuel;
fuel n is always enough since the length of n is at most n for every
positive n. -/
def natBitLenFuel : Nat → Nat → Nat
  | _, 0 => 0
  | 0, _ => 0
  | fuel + 1, n => natBitLenFuel fuel (n / 2) + 1

/-- intBitLen models math/big Int.BitLen: the bit length of the
absolute value, with BitLen 0 = 0. -/
def intBitLen (i : Int) : Nat :=
  natBitLenFuel i.natAbs i.natAbs

/-- parseMetaCert models parseMetaCert (derphttp.go lines 809 to 820):
scan the certificates in order; for each whose common name starts with
derpkey, parse the remainder as a hex public key, and if the parse
succeeds and the serial number bit length is at most 8, return that key
and the serial as the protocol version; otherwise keep scanning.  If no
certificate qualifies, return the zero key and version 0. -/
def parseMetaCert : List Certificate → KeyPublic × Int
  | [] => (zeroKey, 0)
  | cert :: rest =>
    if strHasPrefix cert.commonName "derpkey" then
      match newPublicFromHex (strDropChars cert.commonName 7) with
      | some pub =>
        if intBitLen cert.serialNumber ≤ 8 then (pub, cert.serialNumber)
        else parseMetaCert rest
      | none => parseMetaCert rest
    else parseMetaCert rest

/-- tlsVersionTLS13 is the value of crypto/tls VersionTLS13 (0x0304). -/
def tlsVersionTLS13 : Nat := 772

/-- metaCertKey models the meta cert extraction step of Client.connect
(derphttp.go lines 268 to 299): the zero key and version 0 unless the
connection uses HTTPS and negotiated at least TLS 1.3, in which case
parseMetaCert inspects the peer certificates. -/
def metaCertKey (useHTTPS : Bool) (tlsVersion : Nat) (certs : List Certificate) :
    KeyPublic × Int :=
  if useHTTPS ∧ tlsVersionTLS13 ≤ tlsVersion then parseMetaCert certs
  else (zeroKey, 0)

/-- UpgradeResult records the outcome of the HTTP upgrade exchange: the
Go error result, whether the Derp-Fast-Start header was set on the
request, and how many HTTP responses were read from the connection. -/
structure UpgradeResult where
  result : Except String Unit
  fastStartHeaderSet : Bool
  responsesRead : Nat
  serverPub : KeyPublic
  deriving DecidableEq, Repr

/-- httpUpgrade models the HTTP upgrade step of Client.connect
(derphttp.go lines 293 to 342).  The fast-start branch is taken exactly
when the meta cert step produced a nonzero server key and a nonzero
protocol version; it sets the Derp-Fast-Start header and reads no
response.  The slow-start branch reads exactly one response (outcome
supplied by the resp oracle as either a read error or a status code)
and fails unless the status is 101. -/
def httpUpgrade (useHTTPS : Bool) (tlsVersion : Nat) (certs : List Certificate)
    (resp : Except String Nat) : UpgradeResult :=
  let m := metaCertKey useHTTPS tlsVersion certs
  if isZeroKey m.1 = false ∧ m.2 ≠ 0 then
    { result := Except.ok (), fastStartHeaderSet := true,
      responsesRead := 0, serverPub := m.1 }
  else
    match resp with
    | Except.error e =>
      { result := Except.error e, fastStartHeaderSet := false,
        responsesRead := 1, serverPub := m.1 }
    | Except.ok status =>
      if status = 101 then
        { result := Except.ok (), fastStartHeaderSet := false,
          responsesRead := 1, serverPub := m.1 }
      else
        { result := Except.error "GET failed", fastStartHeaderSet := false,
          responsesRead := 1, serverPub := m.1 }

/-- qualifiesMeta is the condition under which parseMetaCert stops at a
certificate: derpkey prefixed common name, hex remainder of the right
length, serial bit length at most 8. -/
def qualifiesMeta (cert : Certificate) : Bool :=
  strHasPrefix cert.commonName "derpkey" &&
  (newPublicFromHex (strDropChars cert.commonName 7)).isSome &&
  decide (intBitLen cert.serialNumber ≤ 8)

/-- closedState is a handle on which Close has completed from the
initial state. -/
def closedState : ClientState := { initClient with closed := true }

/-- liveState1 is a handle with one live connection: client identity 1,
transport identity 2, generation 1. -/
def liveState1 : ClientState :=
  { closed := false, preferred := false, canAckPings := false,
    client := some 1, netConn := some 2, connGen := 1, serverPubKey := zeroKey }

/-- stunNode is a STUN-only node. -/
def stunNode : DERPNode :=
  { hostName := "stun.example", ipv4 := "", ipv6 := "", stunOnly := true, derpPort := 0 }

/-- badNode is an ordinary node whose dial fails in the scenarios
below. -/
def badNode : DERPNode :=
  { hostName := "bad.example", ipv4 := "", ipv6 := "", stunOnly := false, derpPort := 0 }

/-- regionST is a region whose node list is a STUN-only node followed
by an ordinary node. -/
def regionST : DERPRegion :=
  { regionID := 1, regionCode := "test", nodes := [stunNode, badNode] }

/-- dialFailAll is a dial oracle under which every node fails with an
error naming the node. -/
def dialFailAll : DERPNode → Except String Nat :=
  fun n => Except.error ("dial failed: " ++ n.hostName)

/-- emptyRegion has no nodes. -/
def emptyRegion : DERPRegion := { regionID := 2, regionCode := "e", nodes := [] }

/-- nodeBothDisabled carries an IPv4 literal that is not an IPv4
address and an IPv6 literal that is an IPv4 address, so both families
are disabled. -/
def nodeBothDisabled : DERPNode :=
  { hostName := "derp.example", ipv4 := "nota.valid.ip", ipv6 := "203.0.113.7",
    stunOnly := false, derpPort := 0 }

/-- certSerial0 carries a derpkey meta cert common name with a nonzero
64 digit hex key and serial number 0. -/
def certSerial0 : Certificate :=
  { commonName := "derpkey1111111111111111111111111111111111111111111111111111111111111111",
    serialNumber := 0 }

/-- certSerial2 is the same meta cert with serial number 2. -/
def certSerial2 : Certificate :=
  { commonName := "derpkey1111111111111111111111111111111111111111111111111111111111111111",
    serialNumber := 2 }

/-- notifyCount counts the downstream NotePreferred notifications in an
event list. -/
def notifyCount (evs : List Event) : Nat :=
  evs.countP fun ev =>
    match ev with
    | Event.noteToClient _ => true
    | _ => false

lemma closeForReconnect_noop (s : ClientState) (w : Option Nat)
    (h : s.client ≠ w) : closeForReconnect s w = (s, []) := by
  simp [closeForReconnect, h]

lemma closeForReconnect_connGen (s : ClientState) (w : Option Nat) :
    (closeForReconnect s w).1.connGen = s.connGen := by
  unfold closeForReconnect
  by_cases h : s.client ≠ w
  · simp [h]
  · cases hn : s.netConn <;> simp [h, hn]

lemma connect_state_connGen (s : ClientState) (att : Attempt) :
    (connect s att).2.1.connGen =
      s.connGen + (if freshSuccess s (COp.connectOp att) then 1 else 0) := by
  cases att with
  | fail e =>
    unfold connect freshSuccess
    by_cases h : s.closed
    · simp [h]
    · cases hc : s.client <;> simp [h, hc]
  | succeed k conn pub =>
    unfold connect freshSuccess
    by_cases h : s.closed
    · simp [h]
    · cases hc : s.client <;> simp [h, hc]

lemma recvDetail_state_connGen (s : ClientState) (att : Attempt)
    (r : Except GoErr Nat) :
    (RecvDetail s att r).2.1.connGen =
      s.connGen + (if freshSuccess s (COp.recvOp att r) then 1 else 0) := by
  have hcg := connect_state_connGen s att
  unfold RecvDetail
  cases hco : connect s att with
  | mk res rest =>
    cases res with
    | error e =>
      simp only []
      have : rest.1.connGen = s.connGen + (if freshSuccess s (COp.connectOp att) then 1 else 0) := by
        rw [← hcg, hco]
      rw [this]
      cases att <;> cases r <;> simp [freshSuccess]
    | ok kg =>
      cases r with
      | ok m =>
        simp only []
        have : rest.1.connGen = s.connGen + (if freshSuccess s (COp.connectOp att) then 1 else 0) := by
          rw [← hcg, hco]
        rw [this]
        cases att <;> simp [freshSuccess]
      | error e =>
        simp only [closeForReconnect_connGen]
        have : rest.1.connGen = s.connGen + (if freshSuccess s (COp.connectOp att) then 1 else 0) := by
          rw [← hcg, hco]
        rw [this]
        cases att <;> simp [freshSuccess]

lemma stepState_connGen (s : ClientState) (op : COp) :
    (stepState s op).connGen =
      s.connGen + (if freshSuccess s op then 1 else 0) := by
  cases op with
  | connectOp att => exact connect_state_connGen s att
  | closeForReconnectOp w =>
    simp [stepState, freshSuccess, closeForReconnect_connGen]
  | closeOp =>
    unfold stepState Close freshSuccess
    by_cases h : s.closed <;> simp [h]
  | sendPongOp d =>
    unfold stepState SendPong freshSuccess
    by_cases h : s.closed
    · simp [h]
    · cases hc : s.client <;> simp [h, hc]
  | notePreferredOp v d =>
    unfold stepState NotePreferred freshSuccess
    by_cases h : s.preferred = v
    · simp [h]
    · cases hc : s.client <;> cases d <;>
        simp [h, hc, closeForReconnect_connGen]
  | recvOp att r => exact recvDetail_state_connGen s att r

lemma runState_connGen (s : ClientState) (ops : List COp) :
    (runState s ops).connGen = s.connGen + runCount s ops := by
  induction ops generalizing s with
  | nil => simp [runState, runCount]
  | cons op ops ih =>
    simp only [runState, runCount]
    rw [ih, stepState_connGen]
    cases hf : freshSuccess s op <;> simp [hf] <;> omega

lemma connect_ok_ge (s : ClientState) (att : Attempt) (k g : Nat)
    (h : (connect s att).1 = Except.ok (k, g)) : s.connGen ≤ g := by
  unfold connect at h
  by_cases hcl : s.closed
  · simp [hcl] at h
  · cases hc : s.client with
    | some k0 => simp [hcl, hc] at h; omega
    | none =>
      cases att with
      | fail e => simp [hcl, hc] at h
      | succeed k1 c1 p1 => simp [hcl, hc] at h; omega

/-- C10 (confirmed): Recv is exactly RecvDetail with the generation
discarded: same message, same error, same post state, same events. -/
theorem recv_eq_recvDetail_c10 :
    ∀ (s : ClientState) (att : Attempt) (r : Except GoErr Nat),
      (Recv s att r).1.1 = (RecvDetail s att r).1.1 ∧
      (Recv s att r).1.2 = (RecvDetail s att r).1.2.2 ∧
      (Recv s att r).2 = (RecvDetail s att r).2 := by
  intro s att r
  exact ⟨rfl, rfl, rfl⟩

/-- C5 (confirmed): connect on a closed handle returns the
ErrClientClosed sentinel with no dial and no state change, and connect
on an open handle with a stored client returns that client and the
current generation with no dial and no state change. -/
theorem connect_early_return_c5 :
    (∀ (s : ClientState) (att : Attempt), s.closed = true →
        connect s att = (Except.error GoErr.clientClosed, s, [])) ∧
    (∀ (s : ClientState) (att : Attempt) (k : Nat),
        s.closed = false → s.client = some k →
        connect s att = (Except.ok (k, s.connGen), s, [])) := by
  constructor
  · intro s att h
    simp [connect, h]
  · intro s att k h hk
    simp [connect, h, hk]

/-- Witness for C5 at a closed handle and at a live handle. -/
theorem connect_early_return_c5_witness :
    connect closedState (Attempt.fail "boom") =
      (Except.error GoErr.clientClosed, closedState, []) ∧
    connect liveState1 (Attempt.fail "boom") =
      (Except.ok (1, 1), liveState1, []) :=
  ⟨connect_early_return_c5.1 closedState (Attempt.fail "boom") (by decide),
   connect_early_return_c5.2 liveState1 (Attempt.fail "boom") 1 (by decide) (by decide)⟩

/-- C7 (confirmed): SendPong never changes the state and never dials;
closed gives the sentinel, empty slot gives a not connected error, and
a live slot returns the downstream result verbatim. -/
theorem sendPong_c7 :
    (∀ (s : ClientState) (d : Option GoErr),
        (SendPong s d).2.1 = s ∧ Event.dial ∉ (SendPong s d).2.2) ∧
    (∀ (s : ClientState) (d : Option GoErr), s.closed = true →
        (SendPong s d).1 = some GoErr.clientClosed) ∧
    (∀ (s : ClientState) (d : Option GoErr), s.closed = false → s.client = none →
        (SendPong s d).1 = some (GoErr.errMsg "not connected")) ∧
    (∀ (s : ClientState) (d : Option GoErr) (k : Nat),
        s.closed = false → s.client = some k → (SendPong s d).1 = d) := by
  refine ⟨?_, ?_, ?_, ?_⟩
  · intro s d
    unfold SendPong
    by_cases h : s.closed
    · simp [h]
    · cases hc : s.client <;> simp [h, hc]
  · intro s d h
    simp [SendPong, h]
  · intro s d h hc
    simp [SendPong, h, hc]
  · intro s d k h hc
    simp [SendPong, h, hc]

/-- Witness for C7 at a closed handle, an empty open handle, and a live
handle with a failing downstream pong. -/
theorem sendPong_c7_witness :
    (SendPong closedState none).1 = some GoErr.clientClosed ∧
    (SendPong initClient none).1 = some (GoErr.errMsg "not connected") ∧
    (SendPong liveState1 (some (GoErr.errMsg "pong failed"))).1 =
      some (GoErr.errMsg "pong failed") :=
  ⟨sendPong_c7.2.1 closedState none (by decide),
   sendPong_c7.2.2.1 initClient none (by decide) (by decide),
   sendPong_c7.2.2.2 liveState1 (some (GoErr.errMsg "pong failed")) 1
     (by decide) (by decide)⟩

/-- C3 counterexample: Close on a live handle leaves the closed flag
set while the client and transport fields are still stored, so the
connection slot is not empty after Close returns. -/
theorem close_counterexample_c3 :
    (Close liveState1).2.1.closed = true ∧
    (Close liveState1).2.1.client = some 1 ∧
    (Close liveState1).2.1.netConn = some 2 := by
  decide

/-- C3 (corrected): Close on an open handle reports no error, sets the
closed flag, closes the stored transport if any, and leaves every other
field, in particular the client and netConn slots, unchanged. -/
theorem close_c3_amended :
    ∀ s : ClientState, s.closed = false →
      (Close s).1 = none ∧
      (Close s).2.1 = { s with closed := true } ∧
      (∀ nc, s.netConn = some nc → (Close s).2.2 = [Event.closeConn nc]) := by
  intro s h
  refine ⟨?_, ?_, ?_⟩
  · simp [Close, h]
  · simp [Close, h]
  · intro nc hnc
    simp [Close, h, hnc]

/-- Witness for C3 amended at the live handle. -/
theorem close_c3_amended_witness :
    (Close liveState1).1 = none ∧
    (Close liveState1).2.1 = { liveState1 with closed := true } ∧
    (∀ nc, liveState1.netConn = some nc →
        (Close liveState1).2.2 = [Event.closeConn nc]) :=
  close_c3_amended liveState1 (by decide)

/-- C6 (confirmed): closeForReconnect with a witness different from the
stored client changes nothing; with the stored client as witness it
clears both slots and closes the transport; and a second call with the
same witness right after a teardown is a no-op, so of two sequentialized
concurrent calls exactly one performs the teardown. -/
theorem closeForReconnect_guarded_c6 :
    (∀ (s : ClientState) (w : Nat), s.client ≠ some w →
        closeForReconnect s (some w) = (s, [])) ∧
    (∀ (s : ClientState) (w : Nat), s.client = some w →
        (closeForReconnect s (some w)).1.client = none ∧
        (closeForReconnect s (some w)).1.netConn = none ∧
        (∀ nc, s.netConn = some nc →
            (closeForReconnect s (some w)).2 = [Event.closeConn nc])) ∧
    (∀ (s : ClientState) (w : Nat), s.client = some w →
        closeForReconnect (closeForReconnect s (some w)).1 (some w) =
          ((closeForReconnect s (some w)).1, [])) := by
  refine ⟨?_, ?_, ?_⟩
  · intro s w h
    simp [closeForReconnect, h]
  · intro s w h
    cases hn : s.netConn <;>
      simp [closeForReconnect, h, hn]
  · intro s w h
    have h1 : (closeForReconnect s (some w)).1.client = none := by
      cases hn : s.netConn <;> simp [closeForReconnect, h, hn]
    exact closeForReconnect_noop _ _ (by rw [h1]; simp)

/-- Witness for C6: on the live handle a mismatched witness is a no-op,
the matching witness tears down, and the second matching call after the
teardown is a no-op. -/
theorem closeForReconnect_guarded_c6_witness :
    closeForReconnect liveState1 (some 7) = (liveState1, []) ∧
    (closeForReconnect liveState1 (some 1)).1.client = none ∧
    closeForReconnect (closeForReconnect liveState1 (some 1)).1 (some 1) =
      ((closeForReconnect liveState1 (some 1)).1, []) :=
  ⟨closeForReconnect_guarded_c6.1 liveState1 7 (by decide),
   (closeForReconnect_guarded_c6.2.1 liveState1 1 (by decide)).1,
   closeForReconnect_guarded_c6.2.2 liveState1 1 (by decide)⟩

/-- C1 (confirmed): the generation is monotone.  The first successful
connect returns generation 1; every successful connect from an empty
slot returns exactly one more than the stored generation; neither
closeForReconnect nor Close changes the generation; the generation
never decreases along any run of operations; and a successful connect
after a run containing at least one reconnect returns a generation
strictly greater than the one stored before the run. -/
theorem connGen_monotone_c1 :
    (∀ (att : Attempt) (k g : Nat),
        (connect initClient att).1 = Except.ok (k, g) → g = 1) ∧
    (∀ (s : ClientState) (att : Attempt) (k g : Nat), s.client = none →
        (connect s att).1 = Except.ok (k, g) → g = s.connGen + 1) ∧
    (∀ (s : ClientState) (w : Option Nat),
        (closeForReconnect s w).1.connGen = s.connGen) ∧
    (∀ s : ClientState, (Close s).2.1.connGen = s.connGen) ∧
    (∀ (s : ClientState) (ops : List COp),
        s.connGen ≤ (runState s ops).connGen) ∧
    (∀ (s : ClientState) (ops : List COp) (att : Attempt) (k g : Nat),
        0 < runCount s ops →
        (connect (runState s ops) att).1 = Except.ok (k, g) →
        s.connGen < g) := by
  refine ⟨?_, ?_, ?_, ?_, ?_, ?_⟩
  · intro att k g h
    cases att with
    | fail e => simp [connect, initClient] at h
    | succeed k1 c1 p1 =>
      simp [connect, initClient] at h
      omega
  · intro s att k g hc h
    unfold connect at h
    by_cases hcl : s.closed
    · simp [hcl] at h
    · cases att with
      | fail e => simp [hcl, hc] at h
      | succeed k1 c1 p1 =>
        simp [hcl, hc] at h
        omega
  · intro s w
    exact closeForReconnect_connGen s w
  · intro s
    unfold Close
    by_cases h : s.closed <;> simp [h]
  · intro s ops
    rw [runState_connGen]
    omega
  · intro s ops att k g hcount h
    have hge := connect_ok_ge (runState s ops) att k g h
    rw [runState_connGen] at hge
    omega

/-- Witness for C1: from the live handle, tearing down and reconnecting
gives one reconnect, and the next connect observes generation 2, above
the earlier generation 1. -/
theorem connGen_monotone_c1_witness :
    liveState1.connGen < 2 :=
  connGen_monotone_c1.2.2.2.2.2 liveState1
    [COp.closeForReconnectOp (some 1), COp.connectOp (Attempt.succeed 3 4 zeroKey)]
    (Attempt.fail "x") 3 2 (by decide) (by decide)

/-- C2 counterexample: on a region whose list is a STUN-only node
followed by a failing node, total failure returns the synthesized
no-non-STUNOnly message and not the failing node error. -/
theorem dialRegion_counterexample_c2 :
    (dialRegion regionST dialFailAll).2.1 =
      some "no non-STUNOnly nodes for region 1 (test)" ∧
    dialFailAll badNode = Except.error "dial failed: bad.example" ∧
    ("no non-STUNOnly nodes for region 1 (test)" : String) ≠
      "dial failed: bad.example" := by
  refine ⟨rfl, rfl, by decide⟩

lemma dialRegionLoop_cons (t : String) (dial : DERPNode → Except String Nat)
    (n0 : DERPNode) (ns : List DERPNode) (fe : Option String) :
    dialRegionLoop t dial (n0 :: ns) fe =
      if n0.stunOnly then
        dialRegionLoop t dial ns
          (match fe with
           | none => some ("no non-STUNOnly nodes for " ++ t)
           | some e0 => some e0)
      else
        match dial n0 with
        | Except.ok conn => (some (conn, n0), none, [n0])
        | Except.error e =>
          let r := dialRegionLoop t dial ns
            (match fe with
             | none => some e
             | some e0 => some e0)
          (r.1, r.2.1, n0 :: r.2.2) := rfl

lemma dialRegionLoop_dialed_not_stun (t : String)
    (dial : DERPNode → Except String Nat) :
    ∀ (ns : List DERPNode) (fe : Option String) (n : DERPNode),
      n ∈ (dialRegionLoop t dial ns fe).2.2 → n.stunOnly = false := by
  intro ns
  induction ns with
  | nil =>
    intro fe n h
    simp [dialRegionLoop] at h
  | cons n0 ns ih =>
    intro fe n h
    rw [dialRegionLoop_cons] at h
    by_cases hs : n0.stunOnly
    · rw [if_pos hs] at h
      exact ih _ n h
    · rw [if_neg hs] at h
      cases hd : dial n0 with
      | ok c =>
        rw [hd] at h
        simp at h
        rw [h]
        simpa using hs
      | error e =>
        rw [hd] at h
        simp at h
        rcases h with h | h
        · rw [h]
          simpa using hs
        · exact ih _ n h

lemma dialRegionLoop_all_fail (t : String)
    (dial : DERPNode → Except String Nat) :
    ∀ (ns : List DERPNode) (e0 : String),
      (∀ n ∈ ns, ∃ e, dial n = Except.error e) →
      (dialRegionLoop t dial ns (some e0)).2.1 = some e0 := by
  intro ns
  induction ns with
  | nil =>
    intro e0 _
    simp [dialRegionLoop]
  | cons n0 ns ih =>
    intro e0 hall
    rw [dialRegionLoop_cons]
    by_cases hs : n0.stunOnly
    · rw [if_pos hs]
      exact ih e0 fun n hn => hall n (List.mem_cons_of_mem n0 hn)
    · rw [if_neg hs]
      obtain ⟨e, he⟩ := hall n0 (List.mem_cons_self n0 ns)
      rw [he]
      exact ih e0 fun n hn => hall n (List.mem_cons_of_mem n0 hn)

/-- C2 (corrected): dialRegion never dials a STUN-only node; an empty
node list returns the no-nodes error; but when the list begins with a
STUN-only node the synthesized no-non-STUNOnly message becomes the
first error, so if every later node fails to dial, dialRegion returns
that message rather than the first failing node error. -/
theorem dialRegion_c2_amended :
    (∀ (reg : DERPRegion) (dial : DERPNode → Except String Nat) (n : DERPNode),
        n ∈ (dialRegion reg dial).2.2 → n.stunOnly = false) ∧
    (∀ (reg : DERPRegion) (dial : DERPNode → Except String Nat),
        reg.nodes = [] →
        dialRegion reg dial =
          (none, some ("no nodes for " ++ targetString reg), [])) ∧
    (∀ (reg : DERPRegion) (dial : DERPNode → Except String Nat)
        (s0 : DERPNode) (rest : List DERPNode),
        reg.nodes = s0 :: rest → s0.stunOnly = true →
        (∀ n ∈ rest, ∃ e, dial n = Except.error e) →
        (dialRegion reg dial).2.1 =
          some ("no non-STUNOnly nodes for " ++ targetString reg)) := by
  refine ⟨?_, ?_, ?_⟩
  · intro reg dial n h
    unfold dialRegion at h
    by_cases hn : reg.nodes = []
    · simp [hn] at h
    · rw [if_neg hn] at h
      exact dialRegionLoop_dialed_not_stun _ dial _ _ n h
  · intro reg dial h
    simp [dialRegion, h]
  · intro reg dial s0 rest hn hs hall
    have hstep :
        (dialRegion reg dial).2.1 =
          (dialRegionLoop (targetString reg) dial rest
            (some ("no non-STUNOnly nodes for " ++ targetString reg))).2.1 := by
      unfold dialRegion
      rw [if_neg (by rw [hn]; exact List.cons_ne_nil s0 rest), hn]
      rw [dialRegionLoop_cons, if_pos hs]
    rw [hstep]
    exact dialRegionLoop_all_fail _ dial rest _ hall

/-- Witness for C2 amended: the empty region returns the no-nodes
error, and the STUN-led all-failing region returns the synthesized
message. -/
theorem dialRegion_c2_amended_witness :
    dialRegion emptyRegion dialFailAll =
      (none, some ("no nodes for " ++ targetString emptyRegion), []) ∧
    (dialRegion regionST dialFailAll).2.1 =
      some ("no non-STUNOnly nodes for " ++ targetString regionST) :=
  ⟨dialRegion_c2_amended.2.1 emptyRegion dialFailAll rfl,
   dialRegion_c2_amended.2.2 regionST dialFailAll stunNode [badNode] rfl rfl
     (by
       intro n hn
       rw [List.mem_singleton] at hn
       rw [hn]
       exact ⟨"dial failed: bad.example", rfl⟩)⟩

/-- C8 (confirmed): two consecutive NotePreferred true calls produce at
most one downstream notification; a call with an unchanged flag does
nothing at all; NotePreferred never dials; and a downstream error on a
live client tears the connection down. -/
theorem notePreferred_c8 :
    (∀ (s : ClientState) (d1 d2 : Option GoErr),
        notifyCount ((NotePreferred s true d1).2 ++
          (NotePreferred (NotePreferred s true d1).1 true d2).2) ≤ 1) ∧
    (∀ (s : ClientState) (v : Bool) (d : Option GoErr), s.preferred = v →
        NotePreferred s v d = (s, [])) ∧
    (∀ (s : ClientState) (v : Bool) (d : Option GoErr),
        Event.dial ∉ (NotePreferred s v d).2) ∧
    (∀ (s : ClientState) (v : Bool) (d : Option GoErr) (k : Nat) (e : GoErr),
        s.preferred ≠ v → s.client = some k → d = some e →
        (NotePreferred s v d).1.client = none) := by
  refine ⟨?_, ?_, ?_, ?_⟩
  · intro s d1 d2
    by_cases hp : s.preferred = true
    · simp [NotePreferred, hp, notifyCount]
    · have hp' : s.preferred = false := by simpa using hp
      cases hc : s.client with
      | none => simp [NotePreferred, hp', hc, notifyCount]
      | some k =>
        cases d1 with
        | none => simp [NotePreferred, hp', hc, notifyCount]
        | some e =>
          cases hn : s.netConn with
          | none =>
            simp [NotePreferred, hp', hc, hn, closeForReconnect, notifyCount]
          | some nc =>
            simp [NotePreferred, hp', hc, hn, closeForReconnect, notifyCount]
  · intro s v d h
    simp [NotePreferred, h]
  · intro s v d
    unfold NotePreferred
    by_cases hp : s.preferred = v
    · simp [hp]
    · cases hc : s.client with
      | none => simp [hp, hc]
      | some k =>
        cases d with
        | none => simp [hp, hc]
        | some e =>
          cases hn : s.netConn <;>
            simp [hp, hc, hn, closeForReconnect]
  · intro s v d k e hp hc hd
    rw [hd]
    unfold NotePreferred
    rw [if_neg (by simpa using hp)]
    cases hn : s.netConn <;>
      simp [hc, hn, closeForReconnect]

/-- Witness for C8: from a live non-preferred handle with a failing
downstream, two consecutive calls notify once, and the teardown clears
the client slot. -/
theorem notePreferred_c8_witness :
    NotePreferred liveState1 false none = (liveState1, []) ∧
    (NotePreferred liveState1 true (some (GoErr.errMsg "x"))).1.client = none :=
  ⟨notePreferred_c8.2.1 liveState1 false none (by decide),
   notePreferred_c8.2.2.2 liveState1 true (some (GoErr.errMsg "x")) 1
     (GoErr.errMsg "x") (by decide) (by decide) rfl⟩

lemma shouldDialProto_iff (s : String) (pred : IPAddr → Bool) :
    shouldDialProto s pred = true ↔ (s = "" ∨ pred (parseIP s) = true) := by
  unfold shouldDialProto
  by_cases h : s = "" <;> simp [h]

/-- C9 (confirmed): without a proxy, dialNode starts the IPv4 racer
exactly when the IPv4 literal is empty or parses as an IPv4 address,
the IPv6 racer analogously, and when both families are disabled it
fails at once with the both-disabled error and starts no dial. -/
theorem dialNode_families_c9 :
    ∀ (n : DERPNode) (proxyRes race : Except String Nat),
      (("tcp4", nodeDst n n.ipv4, nodePort n) ∈ (dialNode n none proxyRes race).2 ↔
          (n.ipv4 = "" ∨ (parseIP n.ipv4).is4 = true)) ∧
      (("tcp6", nodeDst n n.ipv6, nodePort n) ∈ (dialNode n none proxyRes race).2 ↔
          (n.ipv6 = "" ∨ (parseIP n.ipv6).is6 = true)) ∧
      (¬(n.ipv4 = "" ∨ (parseIP n.ipv4).is4 = true) →
        ¬(n.ipv6 = "" ∨ (parseIP n.ipv6).is6 = true) →
        dialNode n none proxyRes race =
          (Except.error "both IPv4 and IPv6 are explicitly disabled for node", [])) := by
  intro n proxyRes race
  by_cases h4 : shouldDialProto n.ipv4 IPAddr.is4 = true <;>
    by_cases h6 : shouldDialProto n.ipv6 IPAddr.is6 = true
  · refine ⟨?_, ?_, ?_⟩
    · rw [← shouldDialProto_iff]
      simp [dialNode, h4, h6]
    · rw [← shouldDialProto_iff]
      simp [dialNode, h4, h6]
    · intro hc4
      exact absurd ((shouldDialProto_iff _ _).1 h4) hc4
  · refine ⟨?_, ?_, ?_⟩
    · rw [← shouldDialProto_iff]
      simp [dialNode, h4, h6]
    · rw [← shouldDialProto_iff]
      simp [dialNode, h4, h6]
    · intro hc4
      exact absurd ((shouldDialProto_iff _ _).1 h4) hc4
  · refine ⟨?_, ?_, ?_⟩
    · rw [← shouldDialProto_iff]
      simp [dialNode, h4, h6]
    · rw [← shouldDialProto_iff]
      simp [dialNode, h4, h6]
    · intro _ hc6
      exact absurd ((shouldDialProto_iff _ _).1 h6) hc6
  · refine ⟨?_, ?_, ?_⟩
    · rw [← shouldDialProto_iff]
      simp [dialNode, h4, h6]
    · rw [← shouldDialProto_iff]
      simp [dialNode, h4, h6]
    · intro _ _
      simp [dialNode, h4, h6]

/-- Witness for C9: a node whose IPv4 literal is not an IPv4 address
and whose IPv6 literal is an IPv4 address fails at once with the
both-disabled error. -/
theorem dialNode_families_c9_witness :
    dialNode nodeBothDisabled none (Except.error "p") (Except.error "r") =
      (Except.error "both IPv4 and IPv6 are explicitly disabled for node", []) :=
  (dialNode_families_c9 nodeBothDisabled (Except.error "p") (Except.error "r")).2.2
    (by decide) (by decide)

lemma parseMetaCert_cons (c : Certificate) (rest : List Certificate) :
    parseMetaCert (c :: rest) =
      if strHasPrefix c.commonName "derpkey" then
        match newPublicFromHex (strDropChars c.commonName 7) with
        | some pub =>
          if intBitLen c.serialNumber ≤ 8 then (pub, c.serialNumber)
          else parseMetaCert rest
        | none => parseMetaCert rest
      else parseMetaCert rest := rfl

lemma parseMetaCert_eq_find (certs : List Certificate) :
    parseMetaCert certs =
      match certs.find? qualifiesMeta with
      | none => (zeroKey, 0)
      | some c =>
        ((newPublicFromHex (strDropChars c.commonName 7)).getD zeroKey,
         c.serialNumber) := by
  induction certs with
  | nil => rfl
  | cons c rest ih =>
    rw [parseMetaCert_cons]
    by_cases hp : strHasPrefix c.commonName "derpkey" = true
    · cases hk : newPublicFromHex (strDropChars c.commonName 7) with
      | some pub =>
        by_cases hb : intBitLen c.serialNumber ≤ 8
        · have hq : qualifiesMeta c = true := by
            simp [qualifiesMeta, hp, hk, hb]
          rw [List.find?_cons_of_pos _ hq]
          simp [hp, hk, hb]
        · have hq : ¬qualifiesMeta c = true := by
            simp [qualifiesMeta, hb]
          rw [List.find?_cons_of_neg _ hq]
          simp [hp, hk, hb, ih]
      | none =>
        have hq : ¬qualifiesMeta c = true := by
          simp [qualifiesMeta, hk]
        rw [List.find?_cons_of_neg _ hq]
        simp [hp, hk, ih]
    · have hq : ¬qualifiesMeta c = true := by
        simp [qualifiesMeta, hp]
      rw [List.find?_cons_of_neg _ hq]
      simp [hp, ih]

lemma httpUpgrade_fastStart_iff (u : Bool) (v : Nat) (certs : List Certificate)
    (resp : Except String Nat) :
    (httpUpgrade u v certs resp).fastStartHeaderSet = true ↔
      (isZeroKey (metaCertKey u v certs).1 = false ∧
        (metaCertKey u v certs).2 ≠ 0) := by
  unfold httpUpgrade
  by_cases hg : (isZeroKey (metaCertKey u v certs).1 = false ∧
      (metaCertKey u v certs).2 ≠ 0)
  · simp [hg]
  · cases resp with
    | error e => simp [hg]
    | ok st => by_cases h1 : st = 101 <;> simp [hg, h1]

/-- C4 counterexample: with TLS 1.3 and a single peer certificate whose
common name is derpkey followed by a valid nonzero hex key and whose
serial number is 0 (inside the claimed range 0 to 255), the code takes
the slow-start branch and reads one HTTP response, because the
fast-start condition also requires a nonzero protocol version. -/
theorem upgrade_counterexample_c4 :
    (tlsVersionTLS13 ≤ tlsVersionTLS13 ∧
      strHasPrefix certSerial0.commonName "derpkey" = true ∧
      (newPublicFromHex (strDropChars certSerial0.commonName 7)).isSome = true ∧
      0 ≤ certSerial0.serialNumber ∧ certSerial0.serialNumber ≤ 255) ∧
    (httpUpgrade true tlsVersionTLS13 [certSerial0] (Except.ok 101)).fastStartHeaderSet
        = false ∧
    (httpUpgrade true tlsVersionTLS13 [certSerial0] (Except.ok 101)).responsesRead
        = 1 := by
  decide

/-- C4 (corrected): on a TLS connection the fast-start shortcut is
taken exactly when the TLS version is at least 1.3 and the first
certificate whose common name is derpkey plus a parsable 64 digit hex
key and whose serial number has bit length at most 8 moreover carries a
nonzero key and a nonzero serial; the header is set with no response
read in that case, and otherwise exactly one response is read and the
exchange succeeds exactly on status 101. -/
theorem upgrade_fastStart_c4 :
    ∀ (useHTTPS : Bool) (tlsVersion : Nat) (certs : List Certificate)
      (resp : Except String Nat),
      ((httpUpgrade useHTTPS tlsVersion certs resp).fastStartHeaderSet = true ↔
        (useHTTPS = true ∧ tlsVersionTLS13 ≤ tlsVersion ∧
          ∃ c, certs.find? qualifiesMeta = some c ∧
            newPublicFromHex (strDropChars c.commonName 7) ≠ some zeroKey ∧
            c.serialNumber ≠ 0)) ∧
      ((httpUpgrade useHTTPS tlsVersion certs resp).fastStartHeaderSet = true →
        (httpUpgrade useHTTPS tlsVersion certs resp).responsesRead = 0) ∧
      ((httpUpgrade useHTTPS tlsVersion certs resp).fastStartHeaderSet = false →
        (httpUpgrade useHTTPS tlsVersion certs resp).responsesRead = 1 ∧
        ((httpUpgrade useHTTPS tlsVersion certs resp).result = Except.ok () ↔
          resp = Except.ok 101)) := by
  intro u v certs resp
  refine ⟨?_, ?_, ?_⟩
  · rw [httpUpgrade_fastStart_iff]
    unfold metaCertKey
    by_cases hc : (u = true ∧ tlsVersionTLS13 ≤ v)
    · rw [if_pos hc, parseMetaCert_eq_find]
      cases hf : certs.find? qualifiesMeta with
      | none =>
        simp [isZeroKey, hc]
      | some c =>
        have hq : qualifiesMeta c = true := List.find?_some hf
        cases hk : newPublicFromHex (strDropChars c.commonName 7) with
        | none =>
          exfalso
          simp [qualifiesMeta, hk] at hq
        | some pub =>
          simp only [hk, Option.getD_some]
          constructor
          · rintro ⟨hz, hs0⟩
            refine ⟨hc.1, hc.2, c, rfl, ?_, hs0⟩
            rw [hk]
            intro hcon
            rw [Option.some_inj] at hcon
            rw [hcon] at hz
            simp [isZeroKey] at hz
          · rintro ⟨-, -, c0, hc0, hz0, hs0⟩
            rw [Option.some_inj] at hc0
            subst hc0
            rw [hk] at hz0
            refine ⟨?_, hs0⟩
            simp only [isZeroKey, decide_eq_false_iff_not]
            intro hcon
            exact hz0 (by rw [hcon])
    · rw [if_neg hc]
      constructor
      · intro h
        exfalso
        simp [isZeroKey] at h
      · intro h
        exact absurd ⟨h.1, h.2.1⟩ hc
  · intro h
    unfold httpUpgrade at h ⊢
    by_cases hg : (isZeroKey (metaCertKey u v certs).1 = false ∧
        (metaCertKey u v certs).2 ≠ 0)
    · simp [hg]
    · exfalso
      cases resp with
      | error e => simp [hg] at h
      | ok st => by_cases h1 : st = 101 <;> simp [hg, h1] at h
  · intro h
    unfold httpUpgrade at h ⊢
    by_cases hg : (isZeroKey (metaCertKey u v certs).1 = false ∧
        (metaCertKey u v certs).2 ≠ 0)
    · simp [hg] at h
    · cases resp with
      | error e => simp [hg]
      | ok st =>
        by_cases h1 : st = 101
        · simp [hg, h1]
        · simp [hg, h1]

/-- Witness for C4: serial 2 gives fast start with no response read;
serial 0 gives slow start where one response is read and status 101
succeeds. -/
theorem upgrade_fastStart_c4_witness :
    (httpUpgrade true tlsVersionTLS13 [certSerial2] (Except.ok 101)).responsesRead
        = 0 ∧
    ((httpUpgrade true tlsVersionTLS13 [certSerial0] (Except.ok 101)).responsesRead
        = 1 ∧
      ((httpUpgrade true tlsVersionTLS13 [certSerial0] (Except.ok 101)).result
          = Except.ok () ↔
        (Except.ok 101 : Except String Nat) = Except.ok 101)) :=
  ⟨(upgrade_fastStart_c4 true tlsVersionTLS13 [certSerial2] (Except.ok 101)).2.1
      (by decide),
   (upgrade_fastStart_c4 true tlsVersionTLS13 [certSerial0] (Except.ok 101)).2.2
      (by decide)⟩

end DerpHTTP
